import Mathlib

/-!
Verification of the session-tracker service.

This file gives a shallow embedding of the session lifecycle engine and the
analytics aggregator of the session-tracker repository, and proves or refutes
the frozen claims about them.

Modelling conventions:
* Timestamps are integers counting milliseconds since the Unix epoch
  (client-claimed time strings allow millisecond precision, and the
  document store also keeps millisecond precision).
* Python `int(...)` applied to a duration in fractional seconds is
  truncation toward zero, modelled by `Int.tdiv` of the millisecond
  total by 1000.
* Python `divmod` is floor division, modelled by `Int.fdiv` / `Int.fmod`.
* The fallible time parser returns `Option`; a `none` result models the
  HTTP 400 validation failure raised by `parse_iso_time_string`.
-/

/-- Status values of a session and of an event (`SessionStatus` in models.py). -/
inductive SessionStatus where
  | active
  | paused
  | ended
  deriving DecidableEq, Repr

/-- ASCII digit test, mirroring the `\d` character class of the code's
ISO-8601 regular expression. -/
def isDigitChar (c : Char) : Bool :=
  48 ≤ c.toNat && c.toNat ≤ 57

/-- Numeric value of an ASCII digit character. -/
def digitVal (c : Char) : Nat :=
  c.toNat - 48

/-- Format check for the tail of a time string after the seconds field:
optional `.sss` fraction (exactly three digits) and optional trailing `Z`.
Mirrors the `(\.\d{3})?Z?$` part of `TimeUtils.ISO_DATETIME_PATTERN`. -/
def restFormatOk : List Char → Bool
  | [] => true
  | ['Z'] => true
  | '.' :: f1 :: f2 :: f3 :: rest =>
      isDigitChar f1 && isDigitChar f2 && isDigitChar f3 &&
        (match rest with
         | [] => true
         | ['Z'] => true
         | _ => false)
  | _ => false

/-- Embedding of `TimeUtils.validate_iso_time_format`: the string must match
`^\d{4}-\d{2}-\d{2}T\d{2}:\d{2}:\d{2}(\.\d{3})?Z?$` (the empty string fails). -/
def validate_iso_time_format (time_string : String) : Bool :=
  match time_string.data with
  | y1 :: y2 :: y3 :: y4 :: '-' :: mo1 :: mo2 :: '-' :: d1 :: d2 :: 'T' ::
      h1 :: h2 :: ':' :: mi1 :: mi2 :: ':' :: s1 :: s2 :: rest =>
      isDigitChar y1 && isDigitChar y2 && isDigitChar y3 && isDigitChar y4 &&
      isDigitChar mo1 && isDigitChar mo2 && isDigitChar d1 && isDigitChar d2 &&
      isDigitChar h1 && isDigitChar h2 && isDigitChar mi1 && isDigitChar mi2 &&
      isDigitChar s1 && isDigitChar s2 && restFormatOk rest
  | _ => false

/-- Gregorian leap-year test, as in Python's `datetime` module. -/
def isLeapYear (y : Int) : Bool :=
  y % 4 == 0 && (y % 100 != 0 || y % 400 == 0)

/-- Number of days in a month, as validated by `datetime.fromisoformat`. -/
def daysInMonth (y m : Int) : Int :=
  if m = 2 then (if isLeapYear y then 29 else 28)
  else if m = 4 ∨ m = 6 ∨ m = 9 ∨ m = 11 then 30
  else 31

/-- Days from the Unix epoch (1970-01-01) to the given civil date
(proleptic Gregorian calendar). -/
def daysFromCivil (y m d : Int) : Int :=
  let yAdj := if m ≤ 2 then y - 1 else y
  let era := yAdj.fdiv 400
  let yoe := yAdj - era * 400
  let mp := if m ≤ 2 then m + 9 else m - 3
  let doy := (153 * mp + 2).fdiv 5 + d - 1
  let doe := yoe * 365 + yoe.fdiv 4 - yoe.fdiv 100 + doy
  era * 146097 + doe - 719468

/-- Value of a two-digit field. -/
def twoDigits (a b : Char) : Nat :=
  10 * digitVal a + digitVal b

/-- Embedding of `TimeUtils.parse_iso_time_string` (also of
`validate_and_parse_time`, which only adds an emptiness check already covered
by the format check): format-check the string, then parse it like
`datetime.fromisoformat` after stripping a trailing `Z`, yielding
milliseconds since the Unix epoch.  `none` models the HTTP 400 raised for
format violations and for field values `fromisoformat` rejects (month not in
1..12, day not valid for the month, hour > 23, minute > 59, second > 59,
year 0). -/
def parse_iso_time_string (time_string : String) : Option Int :=
  if validate_iso_time_format time_string then
    match time_string.data with
    | y1 :: y2 :: y3 :: y4 :: _ :: mo1 :: mo2 :: _ :: d1 :: d2 :: _ ::
        h1 :: h2 :: _ :: mi1 :: mi2 :: _ :: s1 :: s2 :: rest =>
        let year : Int :=
          Int.ofNat (1000 * digitVal y1 + 100 * digitVal y2 + 10 * digitVal y3 + digitVal y4)
        let month : Int := Int.ofNat (twoDigits mo1 mo2)
        let day : Int := Int.ofNat (twoDigits d1 d2)
        let hour : Int := Int.ofNat (twoDigits h1 h2)
        let minute : Int := Int.ofNat (twoDigits mi1 mi2)
        let second : Int := Int.ofNat (twoDigits s1 s2)
        let millis : Int :=
          match rest with
          | '.' :: f1 :: f2 :: f3 :: _ =>
              Int.ofNat (100 * digitVal f1 + 10 * digitVal f2 + digitVal f3)
          | _ => 0
        if 1 ≤ year ∧ 1 ≤ month ∧ month ≤ 12 ∧ 1 ≤ day ∧ day ≤ daysInMonth year month ∧
            hour ≤ 23 ∧ minute ≤ 59 ∧ second ≤ 59 then
          some (daysFromCivil year month day * 86400000 +
                hour * 3600000 + minute * 60000 + second * 1000 + millis)
        else none
    | _ => none
  else none

/-- Embedding of `TimeUtils.seconds_to_iso_duration`.  Python `divmod` is
floor division, so negative inputs put the whole negative part in the hours
component and leave non-negative minute/second remainders. -/
def seconds_to_iso_duration (seconds : Int) : String :=
  let hours := seconds.fdiv 3600
  let remainder := seconds.fmod 3600
  let minutes := remainder.fdiv 60
  let secs := remainder.fmod 60
  let d0 := "PT"
  let d1 := if hours ≠ 0 then d0 ++ toString hours ++ "H" else d0
  let d2 := if minutes ≠ 0 then d1 ++ toString minutes ++ "M" else d1
  if secs ≠ 0 ∨ (hours = 0 ∧ minutes = 0) then d2 ++ toString secs ++ "S" else d2

/-- An event of a session (`SessionEvent` in models.py): the parsed
client-claimed time (milliseconds), the status, and the raw client string. -/
structure SessionEvent where
  timestamp : Int
  status : SessionStatus
  event_time : String
  deriving DecidableEq, Repr

/-- A persisted session document (`SessionDB` in models.py).  `created_at`
and `ended_at` are server-clock times. -/
structure SessionDB where
  session_id : String
  username : String
  created_at : Int
  ended_at : Option Int := none
  events : List SessionEvent := []
  total_active_time : Int := 0
  status : SessionStatus := .active
  app : String
  deriving DecidableEq, Repr

/-- One step of the replay loop in
`SessionService._calculate_session_active_time`: the state is the running
total in milliseconds together with the open-interval start.  An ACTIVE event
(re)opens the interval; a PAUSED or ENDED event with an open interval adds the
signed difference and clears it; otherwise nothing changes. -/
def activeTimeStep : Int × Option Int → SessionEvent → Int × Option Int
  | (total, _), ⟨t, .active, _⟩ => (total, some t)
  | (total, some t0), ⟨t, _, _⟩ => (total + (t - t0), none)
  | (total, none), _ => (total, none)

/-- Embedding of `SessionService._calculate_session_active_time`: replay the
persisted events plus the optional new event, then truncate the float-seconds
total toward zero (`int(total_active_seconds)`), i.e. truncate the exact
millisecond total by 1000. -/
def calculate_session_active_time (events : List SessionEvent)
    (new_event : Option SessionEvent) : Int :=
  (((events ++ new_event.toList).foldl activeTimeStep (0, none)).1).tdiv 1000

/-- The session document created by `SessionService.start_session`. -/
def start_session_db (user app : String) (t : Int) (raw : String)
    (sid : String) (now : Int) : SessionDB :=
  { session_id := sid, username := user, created_at := now, ended_at := none,
    events := [⟨t, .active, raw⟩], total_active_time := 0,
    status := .active, app := app }

/-- The `$push`/`$set` update applied by `SessionService.pause_session`. -/
def applyPause (t : Int) (raw : String) (s : SessionDB) : SessionDB :=
  { s with events := s.events ++ [⟨t, .paused, raw⟩],
           status := .paused,
           total_active_time :=
             calculate_session_active_time s.events (some ⟨t, .paused, raw⟩) }

/-- The `$push`/`$set` update applied by `SessionService.resume_session`. -/
def applyResume (t : Int) (raw : String) (s : SessionDB) : SessionDB :=
  { s with events := s.events ++ [⟨t, .active, raw⟩], status := .active }

/-- The `$push`/`$set` update applied by `SessionService.end_session`;
`now` is the server clock used for `ended_at`. -/
def applyEnd (t : Int) (raw : String) (now : Int) (s : SessionDB) : SessionDB :=
  { s with events := s.events ++ [⟨t, .ended, raw⟩],
           status := .ended,
           ended_at := some now,
           total_active_time :=
             calculate_session_active_time s.events (some ⟨t, .ended, raw⟩) }

/-- Single-session view of `pause_session`: the find filter requires status
ACTIVE and the same app; on a match the pause update is applied. -/
def pause_session_db (s : SessionDB) (app : String) (t : Int) (raw : String) :
    Option SessionDB :=
  if s.status = .active ∧ s.app = app then some (applyPause t raw s) else none

/-- Single-session view of `resume_session`: requires status PAUSED and the
same app. -/
def resume_session_db (s : SessionDB) (app : String) (t : Int) (raw : String) :
    Option SessionDB :=
  if s.status = .paused ∧ s.app = app then some (applyResume t raw s) else none

/-- Single-session view of `end_session`: requires status ACTIVE or PAUSED
and the same app. -/
def end_session_db (s : SessionDB) (app : String) (t : Int) (raw : String)
    (now : Int) : Option SessionDB :=
  if (s.status = .active ∨ s.status = .paused) ∧ s.app = app then
    some (applyEnd t raw now s)
  else none

/-- Sessions reachable by the lifecycle operations: created by start and
mutated only by pause/resume/end when their find filters match. -/
inductive ReachableSession : SessionDB → Prop where
  | start (user app raw sid : String) (t now : Int) :
      ReachableSession (start_session_db user app t raw sid now)
  | pauseStep (s s' : SessionDB) (app raw : String) (t : Int) :
      ReachableSession s → pause_session_db s app t raw = some s' →
      ReachableSession s'
  | resumeStep (s s' : SessionDB) (app raw : String) (t : Int) :
      ReachableSession s → resume_session_db s app t raw = some s' →
      ReachableSession s'
  | endStep (s s' : SessionDB) (app raw : String) (t now : Int) :
      ReachableSession s → end_session_db s app t raw now = some s' →
      ReachableSession s'

/-- ASCII lower-casing of a string, the behaviour of Python `str.lower` on
the ASCII range (computed on the character list so that proofs can evaluate
it). -/
def lowerChar (c : Char) : Char :=
  if 65 <= c.toNat && c.toNat <= 90 then Char.ofNat (c.toNat + 32) else c

/-- ASCII lower-casing of a string. -/
def lowerString (s : String) : String :=
  ⟨s.data.map lowerChar⟩

/-- Whitespace test matching Python `str.strip`'s default set on ASCII. -/
def isSpaceChar (c : Char) : Bool :=
  c.toNat == 32 || (9 <= c.toNat && c.toNat <= 13)

/-- Python `str.strip()`: drop whitespace from both ends. -/
def stripString (s : String) : String :=
  ⟨((s.data.dropWhile isSpaceChar).reverse.dropWhile isSpaceChar).reverse⟩

/-- A lifecycle operation request (`SessionOperationRequest` in models.py),
with the raw field values as sent by the client. -/
structure SessionOperationRequest where
  user : String
  session_id : String
  time : String
  app : String
  deriving DecidableEq, Repr

/-- The pydantic validators of `SessionOperationRequest`: the time string
must match the ISO format regex, and the stripped user and session id must be
non-empty.  A request failing this never reaches the service handler (the
framework rejects the body as a validation error). -/
def requestValid (r : SessionOperationRequest) : Bool :=
  validate_iso_time_format r.time && stripString r.user != "" &&
    stripString r.session_id != ""

/-- The pydantic validators return the stripped user and session id. -/
def stripRequest (r : SessionOperationRequest) : SessionOperationRequest :=
  { r with user := stripString r.user, session_id := stripString r.session_id }

/-- Outcome of a lifecycle endpoint, as the caller observes it:
`ok`/`okEnd` are the success responses, `notFound` is the `{"error": ...}`
result that the route turns into HTTP 404, and `validationError` is an
HTTP 400/422 raised by request validation or by time parsing. -/
inductive OpOutcome where
  | ok (session_id : String) (timestamp : Int)
  | okEnd (session_id : String) (total_active_time : String)
  | notFound
  | validationError
  deriving DecidableEq, Repr

/-- Mongo `find_one` on the sessions collection with an equality filter on
session id and app and a status condition: the first matching document. -/
def find_one_session (store : List SessionDB) (sid : String)
    (statusOk : SessionStatus → Bool) (app : String) : Option SessionDB :=
  store.find? fun s => s.session_id == sid && statusOk s.status && s.app == app

/-- Mongo `update_one` filtered on session id: applies the update to the
first document with that session id. -/
def update_one_session (store : List SessionDB) (sid : String)
    (f : SessionDB → SessionDB) : List SessionDB :=
  match store with
  | [] => []
  | s :: rest =>
      if s.session_id == sid then f s :: rest
      else s :: update_one_session rest sid f

/-- Embedding of `SessionService.pause_session`: look the session up first
(status ACTIVE, same app); only then parse the client-claimed time; on
success append the PAUSED event and store the recomputed active time. -/
def pause_session (store : List SessionDB) (req : SessionOperationRequest) :
    OpOutcome × List SessionDB :=
  match find_one_session store req.session_id (fun st => st == .active) req.app with
  | none => (.notFound, store)
  | some s =>
      match parse_iso_time_string req.time with
      | none => (.validationError, store)
      | some t =>
          (.ok req.session_id t,
           update_one_session store s.session_id (applyPause t req.time))

/-- Embedding of `SessionService.resume_session`: same shape as pause but the
filter requires status PAUSED and no active time is recomputed. -/
def resume_session (store : List SessionDB) (req : SessionOperationRequest) :
    OpOutcome × List SessionDB :=
  match find_one_session store req.session_id (fun st => st == .paused) req.app with
  | none => (.notFound, store)
  | some s =>
      match parse_iso_time_string req.time with
      | none => (.validationError, store)
      | some t =>
          (.ok req.session_id t,
           update_one_session store s.session_id (applyResume t req.time))

/-- Embedding of `SessionService.end_session`: the filter accepts status
ACTIVE or PAUSED; the response carries the recomputed total as an ISO-8601
duration string; `now` is the server clock stored in `ended_at`. -/
def end_session (store : List SessionDB) (req : SessionOperationRequest)
    (now : Int) : OpOutcome × List SessionDB :=
  match find_one_session store req.session_id
      (fun st => st == .active || st == .paused) req.app with
  | none => (.notFound, store)
  | some s =>
      match parse_iso_time_string req.time with
      | none => (.validationError, store)
      | some t =>
          (.okEnd req.session_id
             (seconds_to_iso_duration
               (calculate_session_active_time s.events (some ⟨t, .ended, req.time⟩))),
           update_one_session store s.session_id (applyEnd t req.time now))

/-- The `/sessions/pause` endpoint: request-body validation by pydantic
happens before the service runs; the service receives stripped fields. -/
def pause_route (store : List SessionDB) (req : SessionOperationRequest) :
    OpOutcome × List SessionDB :=
  if requestValid req then pause_session store (stripRequest req)
  else (.validationError, store)

/-- The `/sessions/resume` endpoint. -/
def resume_route (store : List SessionDB) (req : SessionOperationRequest) :
    OpOutcome × List SessionDB :=
  if requestValid req then resume_session store (stripRequest req)
  else (.validationError, store)

/-- The `/sessions/end` endpoint. -/
def end_route (store : List SessionDB) (req : SessionOperationRequest)
    (now : Int) : OpOutcome × List SessionDB :=
  if requestValid req then end_session store (stripRequest req) now
  else (.validationError, store)

/-- A persisted page-visit document (`PageTrackDB` in models.py). -/
structure PageTrackDB where
  page : String
  timespent : Int
  timestamp : Int
  user_id : Option String := none
  app : String
  deriving DecidableEq, Repr

/-- The aggregator's user-filter guard `if user and user.lower() != 'all'`:
the user filter is applied only for a present, non-empty value whose
lower-casing is not `all`. -/
def userFilterActive (user : Option String) : Bool :=
  match user with
  | none => false
  | some u => u != "" && lowerString u != "all"

/-- The aggregator query filter over sessions: app equality always, username
equality only when the user filter is active. -/
def sessionMatchesQuery (app : String) (user : Option String) (s : SessionDB) : Bool :=
  s.app == app &&
    (match user with
     | some u => if u != "" && lowerString u != "all" then s.username == u else true
     | none => true)

/-- The aggregator query filter over page visits (`get_time_by_page`): app
equality always, `user_id` equality only when the user filter is active.  A
document whose `user_id` is absent does not match an equality filter. -/
def pageMatchesQuery (app : String) (user : Option String) (v : PageTrackDB) : Bool :=
  v.app == app &&
    (match user with
     | some u => if u != "" && lowerString u != "all" then v.user_id == some u else true
     | none => true)

/-- Truncation of a rational toward zero, i.e. Python `int()` on the exact
value. -/
def ratTrunc (q : ℚ) : Int :=
  q.num.tdiv (q.den : Int)

/-- Floor of a rational, computable. -/
def ratFloor (q : ℚ) : Int :=
  q.num.fdiv (q.den : Int)

/-- Round a rational to the nearest integer, ties to even (Python's
`round`). -/
def roundHalfEven (q : ℚ) : Int :=
  let f := ratFloor q
  let r := q - (f : ℚ)
  if r < 1/2 then f
  else if (1 : ℚ)/2 < r then f + 1
  else if f % 2 = 0 then f else f + 1

/-- Python `round(x, 2)` on the exact value. -/
def round2 (q : ℚ) : ℚ :=
  (roundHalfEven (q * 100) : ℚ) / 100

/-- Response of `/sessions/summary` (`SessionSummaryResponse` in models.py).
Float-valued fields are modelled as exact rationals. -/
structure SessionSummaryResponse where
  total_sessions : Nat
  total_sessions_time : String
  total_sessions_time_seconds : Int
  total_sessions_time_minutes : ℚ
  avg_sessions_time : String
  avg_sessions_time_seconds : ℚ
  avg_sessions_time_minutes : ℚ
  deriving DecidableEq, Repr

/-- The all-zero summary returned for zero matching sessions. -/
def zeroSummary : SessionSummaryResponse :=
  { total_sessions := 0, total_sessions_time := "PT0S",
    total_sessions_time_seconds := 0, total_sessions_time_minutes := 0,
    avg_sessions_time := "PT0S", avg_sessions_time_seconds := 0,
    avg_sessions_time_minutes := 0 }

/-- Embedding of `SessionService.get_session_summary`. -/
def get_session_summary (store : List SessionDB) (app : String)
    (user : Option String) : SessionSummaryResponse :=
  let sessions := store.filter (sessionMatchesQuery app user)
  if sessions.isEmpty then zeroSummary
  else
    let totalSessions := sessions.length
    let totalSeconds : Int := sessions.foldl (fun acc s => acc + s.total_active_time) 0
    let avgSeconds : ℚ := (totalSeconds : ℚ) / (totalSessions : ℚ)
    { total_sessions := totalSessions,
      total_sessions_time := seconds_to_iso_duration totalSeconds,
      total_sessions_time_seconds := totalSeconds,
      total_sessions_time_minutes := round2 ((totalSeconds : ℚ) / 60),
      avg_sessions_time := seconds_to_iso_duration (ratTrunc avgSeconds),
      avg_sessions_time_seconds := round2 avgSeconds,
      avg_sessions_time_minutes := round2 (avgSeconds / 60) }

/-- Embedding of `SessionService.get_session_stats`: number of distinct
usernames and mean active time in minutes (2-decimal rounding); zero matching
sessions yield `(0, 0)`. -/
def get_session_stats (store : List SessionDB) (app : String)
    (user : Option String) : Nat × ℚ :=
  let sessions := store.filter (sessionMatchesQuery app user)
  if sessions.isEmpty then (0, 0)
  else
    let totalTime : Int := sessions.foldl (fun acc s => acc + s.total_active_time) 0
    ((sessions.map (·.username)).eraseDups.length,
     round2 ((totalTime : ℚ) / (sessions.length : ℚ) / 60))

/-- Modelled from the spec wording of the active-time accrual algorithm, for
comparison with the code: one replay step in which each closed interval
contributes its length in seconds already truncated toward zero. -/
def specReplayStep : Int × Option Int → SessionEvent → Int × Option Int
  | (total, _), ⟨t, .active, _⟩ => (total, some t)
  | (total, some t0), ⟨t, _, _⟩ => (total + (t - t0).tdiv 1000, none)
  | (total, none), _ => (total, none)

/-- The spec-worded replay: scan events in append order, truncating each
closed interval's contribution toward zero before adding it. -/
def specReplayActiveTime (events : List SessionEvent)
    (new_event : Option SessionEvent) : Int :=
  ((events ++ new_event.toList).foldl specReplayStep (0, none)).1

/-- The closed ACTIVE-to-PAUSED/ENDED intervals of an event sequence, given
the currently open interval start: an ACTIVE event (re)opens the interval, a
PAUSED/ENDED event with an open interval closes it. -/
def closedIntervals : List SessionEvent → Option Int → List (Int × Int)
  | [], _ => []
  | ⟨t, .active, _⟩ :: rest, _ => closedIntervals rest (some t)
  | ⟨t, _, _⟩ :: rest, some t0 => (t0, t) :: closedIntervals rest none
  | _ :: rest, none => closedIntervals rest none

/-- Exact total length, in milliseconds, of all closed intervals of an event
sequence. -/
def intervalSumMs (events : List SessionEvent) : Int :=
  ((closedIntervals events none).map (fun p => p.2 - p.1)).sum

section Lemmas

/-- Truncating division by a positive constant is monotone in the dividend. -/
lemma tdiv_mono_left {a b : Int} (k : Int) (hk : 0 < k) (h : a ≤ b) :
    a.tdiv k ≤ b.tdiv k := by
  rcases le_or_lt 0 a with ha | ha
  · rw [Int.tdiv_eq_ediv ha hk.le, Int.tdiv_eq_ediv (ha.trans h) hk.le]
    exact Int.ediv_le_ediv hk h
  · rcases le_or_lt 0 b with hb | hb
    · have h1 : a.tdiv k ≤ 0 := by
        have hna : (0 : Int) ≤ -a := by omega
        have h2 := Int.tdiv_nonneg hna hk.le
        rw [Int.neg_tdiv] at h2
        omega
      have h2 : (0 : Int) ≤ b.tdiv k := Int.tdiv_nonneg hb hk.le
      omega
    · have hna : (0 : Int) ≤ -b := by omega
      have h3 : (-b).tdiv k ≤ (-a).tdiv k := by
        rw [Int.tdiv_eq_ediv hna hk.le, Int.tdiv_eq_ediv (by omega) hk.le]
        exact Int.ediv_le_ediv hk (by omega)
      rw [Int.neg_tdiv, Int.neg_tdiv] at h3
      omega

/-- An ACTIVE event never changes the running millisecond total. -/
lemma activeTimeStep_active_fst (st : Int × Option Int) (t : Int) (raw : String) :
    (activeTimeStep st ⟨t, .active, raw⟩).1 = st.1 := by
  rcases st with ⟨a, b⟩
  cases b <;> rfl

/-- The running millisecond total of the replay loop equals the initial total
plus the exact sum of the closed-interval lengths. -/
lemma foldl_activeTimeStep_fst (evs : List SessionEvent) (acc : Int) (op : Option Int) :
    (evs.foldl activeTimeStep (acc, op)).1 =
      acc + ((closedIntervals evs op).map (fun p => p.2 - p.1)).sum := by
  induction evs generalizing acc op with
  | nil => simp [closedIntervals]
  | cons e rest ih =>
    obtain ⟨t, st, raw⟩ := e
    cases st <;> cases op <;>
      simp [activeTimeStep, closedIntervals, ih] <;> ring

end Lemmas

/-- C1, counterexample: the claim demands that each closed interval's
contribution be truncated toward zero before being added, but the code sums
the exact (fractional-second) durations and truncates only the final total.
With client times carrying the milliseconds the accepted format allows, two
half-open intervals of 0.5 s and 0.75 s yield 1 s in the code but 0 s under
the claim's per-interval truncation. -/
theorem c1_spec_replay_counterexample :
    parse_iso_time_string "2024-01-01T00:00:00.000Z" = some 1704067200000
    ∧ parse_iso_time_string "2024-01-01T00:00:00.500Z" = some 1704067200500
    ∧ parse_iso_time_string "2024-01-01T00:00:01.000Z" = some 1704067201000
    ∧ parse_iso_time_string "2024-01-01T00:00:01.750Z" = some 1704067201750
    ∧ calculate_session_active_time
        [⟨1704067200000, .active, "2024-01-01T00:00:00.000Z"⟩,
         ⟨1704067200500, .paused, "2024-01-01T00:00:00.500Z"⟩,
         ⟨1704067201000, .active, "2024-01-01T00:00:01.000Z"⟩]
        (some ⟨1704067201750, .paused, "2024-01-01T00:00:01.750Z"⟩) = 1
    ∧ specReplayActiveTime
        [⟨1704067200000, .active, "2024-01-01T00:00:00.000Z"⟩,
         ⟨1704067200500, .paused, "2024-01-01T00:00:00.500Z"⟩,
         ⟨1704067201000, .active, "2024-01-01T00:00:01.000Z"⟩]
        (some ⟨1704067201750, .paused, "2024-01-01T00:00:01.750Z"⟩) = 0
    ∧ (1 : Int) ≠ 0 := by
  decide

/-- C1, amended: the accrued active time computed on pause/end equals the
spec's replay over the persisted events plus the new event, with an ACTIVE
event (re)opening the interval and a PAUSED/ENDED event closing it (negative
contributions not clamped, PAUSED/ENDED with no open interval contributing
zero) — except that truncation toward zero is applied once to the final
exact total of the closed-interval durations, not to each interval's
contribution. -/
theorem c1_active_time_is_truncated_interval_sum (events : List SessionEvent)
    (new_event : Option SessionEvent) :
    calculate_session_active_time events new_event =
      (intervalSumMs (events ++ new_event.toList)).tdiv 1000 := by
  unfold calculate_session_active_time intervalSumMs
  rw [foldl_activeTimeStep_fst]
  simp

/-- C7: for non-negative seconds the ISO-8601 duration drops zero hour and
minute components, keeps a zero seconds component exactly when hours and
minutes are both zero, and maps 0, 59, 3661 and 3665 to "PT0S", "PT59S",
"PT1H1M1S" and "PT1H1M5S". -/
theorem c7_duration_format (n : Int) (hn : 0 ≤ n) :
    seconds_to_iso_duration n =
      "PT" ++ (if n / 3600 = 0 then "" else toString (n / 3600) ++ "H")
           ++ (if n % 3600 / 60 = 0 then "" else toString (n % 3600 / 60) ++ "M")
           ++ (if n % 60 ≠ 0 ∨ (n / 3600 = 0 ∧ n % 3600 / 60 = 0) then
                 toString (n % 60) ++ "S"
               else "")
    ∧ seconds_to_iso_duration 0 = "PT0S"
    ∧ seconds_to_iso_duration 59 = "PT59S"
    ∧ seconds_to_iso_duration 3661 = "PT1H1M1S"
    ∧ seconds_to_iso_duration 3665 = "PT1H1M5S" := by
  refine ⟨?_, by decide, by decide, by decide, by decide⟩
  simp only [seconds_to_iso_duration]
  rw [Int.fdiv_eq_ediv n (by norm_num), Int.fmod_eq_emod n (by norm_num),
      Int.fdiv_eq_ediv (n % 3600) (by norm_num), Int.fmod_eq_emod (n % 3600) (by norm_num),
      Int.emod_emod_of_dvd n (by norm_num)]
  split_ifs <;> simp_all [String.append_assoc]

/-- C7, witness: the four concrete format examples, obtained from the
theorem at input 0. -/
theorem c7_witness :
    seconds_to_iso_duration 0 = "PT0S"
    ∧ seconds_to_iso_duration 59 = "PT59S"
    ∧ seconds_to_iso_duration 3661 = "PT1H1M1S"
    ∧ seconds_to_iso_duration 3665 = "PT1H1M5S" := by
  have h := c7_duration_format 0 (by norm_num)
  exact ⟨h.2.1, h.2.2.1, h.2.2.2.1, h.2.2.2.2⟩

/-- C10: for negative seconds the function returns (it never raises) a
string whose hours component is the negative floor quotient while minutes
and seconds are the non-negative floor remainders, and -1 second formats as
the malformed duration "PT-1H59M59S". -/
theorem c10_negative_duration (n : Int) (hn : n < 0) :
    (n / 3600 < 0 ∧ 0 ≤ n % 3600 / 60 ∧ n % 3600 / 60 < 60
      ∧ 0 ≤ n % 60 ∧ n % 60 < 60)
    ∧ seconds_to_iso_duration n =
        "PT" ++ toString (n / 3600) ++ "H"
             ++ (if n % 3600 / 60 = 0 then "" else toString (n % 3600 / 60) ++ "M")
             ++ (if n % 60 = 0 then "" else toString (n % 60) ++ "S")
    ∧ seconds_to_iso_duration (-1) = "PT-1H59M59S" := by
  refine ⟨by omega, ?_, by decide⟩
  have hh : n / 3600 < 0 := by omega
  simp only [seconds_to_iso_duration]
  rw [Int.fdiv_eq_ediv n (by norm_num), Int.fmod_eq_emod n (by norm_num),
      Int.fdiv_eq_ediv (n % 3600) (by norm_num), Int.fmod_eq_emod (n % 3600) (by norm_num),
      Int.emod_emod_of_dvd n (by norm_num)]
  split_ifs <;> simp_all [String.append_assoc]

/-- C10, witness: the concrete example at -1 second. -/
theorem c10_witness : seconds_to_iso_duration (-1) = "PT-1H59M59S" :=
  (c10_negative_duration (-1) (by norm_num)).2.2

/-- C9: a user filter value that lower-cases to "all" disables user
filtering (the app filter still applies); any other non-empty value
restricts sessions to exact username match and page visits to exact
`user_id` match. -/
theorem c9_user_filter (app u : String) (store : List SessionDB)
    (pstore : List PageTrackDB) :
    (lowerString u = "all" →
      store.filter (sessionMatchesQuery app (some u)) =
        store.filter (fun s => s.app == app)
      ∧ pstore.filter (pageMatchesQuery app (some u)) =
        pstore.filter (fun v => v.app == app))
    ∧ (u ≠ "" → lowerString u ≠ "all" →
      store.filter (sessionMatchesQuery app (some u)) =
        store.filter (fun s => s.app == app && s.username == u)
      ∧ pstore.filter (pageMatchesQuery app (some u)) =
        pstore.filter (fun v => v.app == app && v.user_id == some u)) := by
  constructor
  · intro hall
    constructor
    · refine List.filter_congr fun s _ => ?_
      simp [sessionMatchesQuery, hall]
    · refine List.filter_congr fun v _ => ?_
      simp [pageMatchesQuery, hall]
  · intro hne hnall
    constructor
    · refine List.filter_congr fun s _ => ?_
      simp [sessionMatchesQuery, hne, hnall]
    · refine List.filter_congr fun v _ => ?_
      simp [pageMatchesQuery, hne, hnall]

/-- C9, witness: with two users in app "a" and one session in app "b", the
filter value "ALL" keeps both app-"a" sessions and visits of every user,
while "u1" keeps exactly the matching records. -/
theorem c9_witness :
    ([⟨"s1", "u1", 0, none, [], 0, .active, "a"⟩,
      ⟨"s2", "u2", 0, none, [], 0, .active, "a"⟩,
      ⟨"s3", "u1", 0, none, [], 0, .active, "b"⟩] : List SessionDB).filter
        (sessionMatchesQuery "a" (some "ALL")) =
      [⟨"s1", "u1", 0, none, [], 0, .active, "a"⟩,
       ⟨"s2", "u2", 0, none, [], 0, .active, "a"⟩]
    ∧ ([⟨"p1", 10, 0, some "u1", "a"⟩, ⟨"p2", 20, 0, some "u2", "a"⟩] :
        List PageTrackDB).filter (pageMatchesQuery "a" (some "ALL")) =
      [⟨"p1", 10, 0, some "u1", "a"⟩, ⟨"p2", 20, 0, some "u2", "a"⟩]
    ∧ ([⟨"s1", "u1", 0, none, [], 0, .active, "a"⟩,
        ⟨"s2", "u2", 0, none, [], 0, .active, "a"⟩,
        ⟨"s3", "u1", 0, none, [], 0, .active, "b"⟩] : List SessionDB).filter
        (sessionMatchesQuery "a" (some "u1")) =
      [⟨"s1", "u1", 0, none, [], 0, .active, "a"⟩]
    ∧ ([⟨"p1", 10, 0, some "u1", "a"⟩, ⟨"p2", 20, 0, some "u2", "a"⟩] :
        List PageTrackDB).filter (pageMatchesQuery "a" (some "u1")) =
      [⟨"p1", 10, 0, some "u1", "a"⟩] := by
  have h1 := (c9_user_filter "a" "ALL"
    [⟨"s1", "u1", 0, none, [], 0, .active, "a"⟩,
     ⟨"s2", "u2", 0, none, [], 0, .active, "a"⟩,
     ⟨"s3", "u1", 0, none, [], 0, .active, "b"⟩]
    [⟨"p1", 10, 0, some "u1", "a"⟩, ⟨"p2", 20, 0, some "u2", "a"⟩]).1 (by decide)
  have h2 := (c9_user_filter "a" "u1"
    [⟨"s1", "u1", 0, none, [], 0, .active, "a"⟩,
     ⟨"s2", "u2", 0, none, [], 0, .active, "a"⟩,
     ⟨"s3", "u1", 0, none, [], 0, .active, "b"⟩]
    [⟨"p1", 10, 0, some "u1", "a"⟩, ⟨"p2", 20, 0, some "u2", "a"⟩]).2
    (by decide) (by decide)
  refine ⟨h1.1.trans (by decide), h1.2.trans (by decide),
          h2.1.trans (by decide), h2.2.trans (by decide)⟩

/-- C6: resuming an existing PAUSED session of the same app appends exactly
one ACTIVE event at the client-claimed time and sets the status to ACTIVE,
leaving the accrued active time and every other field unchanged. -/
theorem c6_resume_frame (s : SessionDB) (app : String) (t : Int) (raw : String)
    (h1 : s.status = .paused) (h2 : s.app = app) :
    resume_session_db s app t raw = some (applyResume t raw s)
    ∧ (applyResume t raw s).events = s.events ++ [⟨t, .active, raw⟩]
    ∧ (applyResume t raw s).status = .active
    ∧ (applyResume t raw s).total_active_time = s.total_active_time
    ∧ (applyResume t raw s).session_id = s.session_id
    ∧ (applyResume t raw s).username = s.username
    ∧ (applyResume t raw s).created_at = s.created_at
    ∧ (applyResume t raw s).ended_at = s.ended_at
    ∧ (applyResume t raw s).app = s.app := by
  refine ⟨?_, rfl, rfl, rfl, rfl, rfl, rfl, rfl, rfl⟩
  simp [resume_session_db, h1, h2]

/-- C6, witness: resuming a concrete paused session. -/
theorem c6_witness :
    resume_session_db
      ⟨"s1", "u", 0, none, [⟨0, .active, "x"⟩, ⟨5000, .paused, "y"⟩], 5, .paused, "a"⟩
      "a" 9000 "z" =
      some (applyResume 9000 "z"
        ⟨"s1", "u", 0, none, [⟨0, .active, "x"⟩, ⟨5000, .paused, "y"⟩], 5, .paused, "a"⟩)
    ∧ (applyResume 9000 "z"
        ⟨"s1", "u", 0, none, [⟨0, .active, "x"⟩, ⟨5000, .paused, "y"⟩], 5, .paused, "a"⟩).total_active_time = 5 := by
  have h := c6_resume_frame
    ⟨"s1", "u", 0, none, [⟨0, .active, "x"⟩, ⟨5000, .paused, "y"⟩], 5, .paused, "a"⟩
    "a" 9000 "z" rfl rfl
  exact ⟨h.1, h.2.2.2.1⟩

/-- C3: a pydantic-valid pause request whose session lookup matches nothing
(unknown id, non-ACTIVE status such as already PAUSED, or different app)
yields the not-found outcome (HTTP 404 at the route), never a validation or
internal error, and leaves the store unchanged. -/
theorem c3_pause_not_found (store : List SessionDB) (req : SessionOperationRequest)
    (hval : requestValid req = true)
    (hfind : find_one_session store (stripString req.session_id)
      (fun st => st == .active) req.app = none) :
    pause_route store req = (.notFound, store) := by
  simp [pause_route, hval, pause_session, stripRequest, hfind]

/-- C3, witness: pausing a session that is already PAUSED (same id, same
app) reports not-found. -/
theorem c3_witness :
    pause_route
      [⟨"s1", "u", 0, none, [⟨0, .active, "x"⟩, ⟨5000, .paused, "y"⟩], 5, .paused, "a"⟩]
      ⟨"u", "s1", "2024-01-01T10:00:00Z", "a"⟩ =
      (.notFound,
       [⟨"s1", "u", 0, none, [⟨0, .active, "x"⟩, ⟨5000, .paused, "y"⟩], 5, .paused, "a"⟩]) :=
  c3_pause_not_found
    [⟨"s1", "u", 0, none, [⟨0, .active, "x"⟩, ⟨5000, .paused, "y"⟩], 5, .paused, "a"⟩]
    ⟨"u", "s1", "2024-01-01T10:00:00Z", "a"⟩ (by decide) (by decide)

/-- C8: the summary over zero matching sessions is the all-zero summary with
duration "PT0S"; over N ≥ 1 matching sessions it reports N, the exact sum of
the stored active times, and the average sum/N, each expressed as ISO-8601
duration, seconds and minutes with 2-decimal rounding. -/
theorem c8_summary (store : List SessionDB) (app : String) (user : Option String) :
    (store.filter (sessionMatchesQuery app user) = [] →
      get_session_summary store app user = zeroSummary)
    ∧ (store.filter (sessionMatchesQuery app user) ≠ [] →
      get_session_summary store app user =
        { total_sessions := (store.filter (sessionMatchesQuery app user)).length,
          total_sessions_time := seconds_to_iso_duration
            ((store.filter (sessionMatchesQuery app user)).map (·.total_active_time)).sum,
          total_sessions_time_seconds :=
            ((store.filter (sessionMatchesQuery app user)).map (·.total_active_time)).sum,
          total_sessions_time_minutes := round2
            (((((store.filter (sessionMatchesQuery app user)).map
                (·.total_active_time)).sum : Int) : ℚ) / 60),
          avg_sessions_time := seconds_to_iso_duration (ratTrunc
            (((((store.filter (sessionMatchesQuery app user)).map
                (·.total_active_time)).sum : Int) : ℚ) /
              ((store.filter (sessionMatchesQuery app user)).length : ℚ))),
          avg_sessions_time_seconds := round2
            (((((store.filter (sessionMatchesQuery app user)).map
                (·.total_active_time)).sum : Int) : ℚ) /
              ((store.filter (sessionMatchesQuery app user)).length : ℚ)),
          avg_sessions_time_minutes := round2
            ((((((store.filter (sessionMatchesQuery app user)).map
                (·.total_active_time)).sum : Int) : ℚ) /
              ((store.filter (sessionMatchesQuery app user)).length : ℚ)) / 60) }) := by
  have hfold : (store.filter (sessionMatchesQuery app user)).foldl
      (fun acc s => acc + s.total_active_time) 0 =
      ((store.filter (sessionMatchesQuery app user)).map (·.total_active_time)).sum := by
    rw [List.sum_eq_foldl, List.foldl_map]
  constructor
  · intro h
    simp [get_session_summary, h]
  · intro h
    simp only [get_session_summary, hfold, List.isEmpty_iff, if_neg h]

/-- Example store for the summary witness: two ended sessions of app "a"
with 30 and 90 accrued seconds. -/
def sampleSummaryStore : List SessionDB :=
  [⟨"s1", "u1", 0, none, [], 30, .ended, "a"⟩,
   ⟨"s2", "u2", 0, none, [], 90, .ended, "a"⟩]

/-- C8, witness: over the two matching sessions the summary reports 2
sessions, 120 s total ("PT2M", 2 minutes) and 60 s average ("PT1M",
1 minute); over zero matching sessions (app "b") it is the zero summary. -/
theorem c8_witness :
    get_session_summary sampleSummaryStore "a" none =
      { total_sessions := 2, total_sessions_time := "PT2M",
        total_sessions_time_seconds := 120, total_sessions_time_minutes := 2,
        avg_sessions_time := "PT1M", avg_sessions_time_seconds := 60,
        avg_sessions_time_minutes := 1 }
    ∧ get_session_summary sampleSummaryStore "b" none = zeroSummary := by
  have h := c8_summary sampleSummaryStore "a" none
  have h0 := c8_summary sampleSummaryStore "b" none
  refine ⟨(h.2 (by decide)).trans ?_, h0.1 (by decide)⟩
  have hfil : sampleSummaryStore.filter (sessionMatchesQuery "a" none) =
      sampleSummaryStore := by decide
  rw [hfil]
  have hsum : (sampleSummaryStore.map (·.total_active_time)).sum = 120 := by decide
  have hlen : sampleSummaryStore.length = 2 := by decide
  rw [hsum, hlen]
  have havg : (((120 : Int) : ℚ)) / ((2 : Nat) : ℚ) = 60 := by norm_num
  rw [havg]
  have htr : ratTrunc 60 = 60 := by norm_num [ratTrunc]
  rw [htr]
  have h1 : round2 (((120 : Int) : ℚ) / 60) = 2 := by
    norm_num [round2, roundHalfEven, ratFloor]
  have h2 : round2 (60 : ℚ) = 60 := by
    norm_num [round2, roundHalfEven, ratFloor]
  have h3 : round2 ((60 : ℚ) / 60) = 1 := by
    norm_num [round2, roundHalfEven, ratFloor]
  rw [h1, h2, h3]
  decide

/-- C4, counterexample: "2024-02-30T00:00:00Z" matches the format regex but
is not parseable as a timestamp (February has no day 30), so the claim calls
it malformed; yet a pause request carrying it against an empty store is
answered not-found — the session lookup ran first and decided the outcome,
and no validation failure was reported. -/
theorem c4_lookup_precedes_parse_counterexample :
    validate_iso_time_format "2024-02-30T00:00:00Z" = true
    ∧ parse_iso_time_string "2024-02-30T00:00:00Z" = none
    ∧ pause_route [] ⟨"u", "s1", "2024-02-30T00:00:00Z", "a"⟩ = (.notFound, [])
    ∧ (OpOutcome.notFound ≠ OpOutcome.validationError) := by
  decide

/-- C4, amended: a time string failing the format regex is rejected as a
validation failure by request validation, before any lookup; a time string
matching the regex but not parseable as a timestamp passes request
validation, and the session lookup then runs first and decides the outcome:
not-found when no session matches, a validation failure otherwise.  In every
case no event is appended and no session state changes. -/
theorem c4_malformed_time (store : List SessionDB) (req : SessionOperationRequest)
    (now : Int) (hparse : parse_iso_time_string req.time = none) :
    ((pause_route store req).2 = store ∧ (resume_route store req).2 = store
      ∧ (end_route store req now).2 = store)
    ∧ (validate_iso_time_format req.time = false →
        (pause_route store req).1 = .validationError
        ∧ (resume_route store req).1 = .validationError
        ∧ (end_route store req now).1 = .validationError)
    ∧ (requestValid req = true →
        ((find_one_session store (stripString req.session_id)
            (fun st => st == .active) req.app = none →
          (pause_route store req).1 = .notFound)
        ∧ (find_one_session store (stripString req.session_id)
            (fun st => st == .active) req.app ≠ none →
          (pause_route store req).1 = .validationError))
        ∧ ((find_one_session store (stripString req.session_id)
            (fun st => st == .paused) req.app = none →
          (resume_route store req).1 = .notFound)
        ∧ (find_one_session store (stripString req.session_id)
            (fun st => st == .paused) req.app ≠ none →
          (resume_route store req).1 = .validationError))
        ∧ ((find_one_session store (stripString req.session_id)
            (fun st => st == .active || st == .paused) req.app = none →
          (end_route store req now).1 = .notFound)
        ∧ (find_one_session store (stripString req.session_id)
            (fun st => st == .active || st == .paused) req.app ≠ none →
          (end_route store req now).1 = .validationError))) := by
  refine ⟨⟨?_, ?_, ?_⟩, ?_, ?_⟩
  · by_cases hv : requestValid req = true
    · cases hf : find_one_session store (stripString req.session_id)
        (fun st => st == .active) req.app <;>
        simp [pause_route, hv, pause_session, stripRequest, hf, hparse]
    · simp [pause_route, hv]
  · by_cases hv : requestValid req = true
    · cases hf : find_one_session store (stripString req.session_id)
        (fun st => st == .paused) req.app <;>
        simp [resume_route, hv, resume_session, stripRequest, hf, hparse]
    · simp [resume_route, hv]
  · by_cases hv : requestValid req = true
    · cases hf : find_one_session store (stripString req.session_id)
        (fun st => st == .active || st == .paused) req.app <;>
        simp [end_route, hv, end_session, stripRequest, hf, hparse]
    · simp [end_route, hv]
  · intro hvf
    have hv : requestValid req = false := by
      simp [requestValid, hvf]
    simp [pause_route, resume_route, end_route, hv]
  · intro hv
    refine ⟨⟨?_, ?_⟩, ⟨?_, ?_⟩, ?_, ?_⟩
    · intro hf
      simp [pause_route, hv, pause_session, stripRequest, hf]
    · intro hf
      cases hfe : find_one_session store (stripString req.session_id)
          (fun st => st == .active) req.app with
      | none => exact absurd hfe hf
      | some s => simp [pause_route, hv, pause_session, stripRequest, hfe, hparse]
    · intro hf
      simp [resume_route, hv, resume_session, stripRequest, hf]
    · intro hf
      cases hfe : find_one_session store (stripString req.session_id)
          (fun st => st == .paused) req.app with
      | none => exact absurd hfe hf
      | some s => simp [resume_route, hv, resume_session, stripRequest, hfe, hparse]
    · intro hf
      simp [end_route, hv, end_session, stripRequest, hf]
    · intro hf
      cases hfe : find_one_session store (stripString req.session_id)
          (fun st => st == .active || st == .paused) req.app with
      | none => exact absurd hfe hf
      | some s => simp [end_route, hv, end_session, stripRequest, hfe, hparse]

/-- C4, witness: with the unparseable-but-format-valid time
"2024-02-30T00:00:00Z", a pause against a store holding a matching ACTIVE
session is a validation failure with the store unchanged, while a pause
against the empty store is not-found. -/
theorem c4_witness :
    (pause_route [⟨"s1", "u", 0, none, [⟨0, .active, "x"⟩], 0, .active, "a"⟩]
      ⟨"u", "s1", "2024-02-30T00:00:00Z", "a"⟩).1 = .validationError
    ∧ (pause_route [⟨"s1", "u", 0, none, [⟨0, .active, "x"⟩], 0, .active, "a"⟩]
      ⟨"u", "s1", "2024-02-30T00:00:00Z", "a"⟩).2 =
      [⟨"s1", "u", 0, none, [⟨0, .active, "x"⟩], 0, .active, "a"⟩]
    ∧ (pause_route [] ⟨"u", "s1", "2024-02-30T00:00:00Z", "a"⟩).1 = .notFound := by
  have h1 := c4_malformed_time
    [⟨"s1", "u", 0, none, [⟨0, .active, "x"⟩], 0, .active, "a"⟩]
    ⟨"u", "s1", "2024-02-30T00:00:00Z", "a"⟩ 0 (by decide)
  have h2 := c4_malformed_time [] ⟨"u", "s1", "2024-02-30T00:00:00Z", "a"⟩ 0 (by decide)
  exact ⟨(h1.2.2 (by decide)).1.2 (by decide), h1.1.1,
         (h2.2.2 (by decide)).1.1 (by decide)⟩

section ReplayLemmas

/-- Appending the new event to the history before replaying equals replaying
with the event passed separately. -/
lemma calc_append_event (evs : List SessionEvent) (e : SessionEvent) :
    calculate_session_active_time evs (some e) =
      calculate_session_active_time (evs ++ [e]) none := by
  simp [calculate_session_active_time]

/-- A trailing ACTIVE event does not change the replayed total. -/
lemma calc_append_active (evs : List SessionEvent) (t : Int) (raw : String) :
    calculate_session_active_time (evs ++ [⟨t, .active, raw⟩]) none =
      calculate_session_active_time evs none := by
  unfold calculate_session_active_time
  simp only [Option.toList, List.append_nil, List.foldl_append, List.foldl_cons,
    List.foldl_nil]
  rw [activeTimeStep_active_fst]

/-- The stored accrued active time of any reachable session equals the
replay of its persisted events. -/
lemma reachable_total_eq (s : SessionDB) (h : ReachableSession s) :
    s.total_active_time = calculate_session_active_time s.events none := by
  induction h with
  | start user app raw sid t now =>
      simp [start_session_db, calculate_session_active_time, activeTimeStep]
  | pauseStep s s' app raw t hr heq ih =>
      unfold pause_session_db at heq
      split_ifs at heq with hc
      injection heq with he
      subst he
      simp [applyPause, calc_append_event]
  | resumeStep s s' app raw t hr heq ih =>
      unfold resume_session_db at heq
      split_ifs at heq with hc
      injection heq with he
      subst he
      simpa [applyResume, calc_append_active] using ih
  | endStep s s' app raw t now hr heq ih =>
      unfold end_session_db at heq
      split_ifs at heq with hc
      injection heq with he
      subst he
      simp [applyEnd, calc_append_event]

/-- If the replay ends with an open interval, its start is the timestamp of
one of the replayed events (or was already open initially). -/
lemma foldl_activeTimeStep_snd_mem (evs : List SessionEvent) :
    ∀ (init : Int × Option Int) (u : Int),
      (evs.foldl activeTimeStep init).2 = some u →
      (∃ e ∈ evs, e.timestamp = u) ∨ init.2 = some u := by
  induction evs with
  | nil =>
      intro init u h
      right
      simpa using h
  | cons e rest ih =>
      intro init u h
      rcases ih (activeTimeStep init e) u (by simpa using h) with h1 | h2
      · obtain ⟨x, hx, hxt⟩ := h1
        exact Or.inl ⟨x, List.mem_cons_of_mem e hx, hxt⟩
      · obtain ⟨t, st, raw⟩ := e
        rcases init with ⟨a, b⟩
        cases st with
        | active =>
            simp [activeTimeStep] at h2
            exact Or.inl ⟨⟨t, .active, raw⟩, List.mem_cons_self _ _, h2⟩
        | paused => cases b <;> simp [activeTimeStep] at h2
        | ended => cases b <;> simp [activeTimeStep] at h2

/-- Closing the history with an event whose client time is at least every
earlier event's time can only increase the replayed total. -/
lemma calc_le_append (evs : List SessionEvent) (e : SessionEvent)
    (hle : ∀ x ∈ evs, x.timestamp ≤ e.timestamp) :
    calculate_session_active_time evs none ≤
      calculate_session_active_time evs (some e) := by
  unfold calculate_session_active_time
  apply tdiv_mono_left 1000 (by norm_num)
  simp only [Option.toList, List.append_nil, List.foldl_append, List.foldl_cons,
    List.foldl_nil]
  rcases hst : evs.foldl activeTimeStep (0, none) with ⟨a, b⟩
  obtain ⟨t, st, raw⟩ := e
  have hmem : ∀ t0, b = some t0 → t0 ≤ t := by
    intro t0 hb
    rcases foldl_activeTimeStep_snd_mem evs (0, none) t0 (by rw [hst, hb]) with h1 | h2
    · obtain ⟨x, hx, hxt⟩ := h1
      exact hxt ▸ hle x hx
    · simp at h2
  cases st with
  | active => rw [activeTimeStep_active_fst]
  | paused =>
      cases b with
      | none => simp [activeTimeStep]
      | some t0 =>
          have := hmem t0 rfl
          simp only [activeTimeStep]
          omega
  | ended =>
      cases b with
      | none => simp [activeTimeStep]
      | some t0 =>
          have := hmem t0 rfl
          simp only [activeTimeStep]
          omega

end ReplayLemmas

/-- C2, counterexample: validation accepts any well-formed time, including
one earlier than the session's start; pausing at a claimed time 100 s before
the initial ACTIVE event drops the stored total from 0 to -100, so the
stored accrued active time is not monotonically non-decreasing. -/
theorem c2_decrease_counterexample :
    parse_iso_time_string "2024-01-01T00:01:40Z" = some 1704067300000
    ∧ parse_iso_time_string "2024-01-01T00:00:00Z" = some 1704067200000
    ∧ (start_session_db "u" "a" 1704067300000 "2024-01-01T00:01:40Z" "s1" 0).total_active_time = 0
    ∧ (pause_session_db
        (start_session_db "u" "a" 1704067300000 "2024-01-01T00:01:40Z" "s1" 0)
        "a" 1704067200000 "2024-01-01T00:00:00Z").map (·.total_active_time) =
      some (-100)
    ∧ ((-100 : Int) < 0) := by
  decide

/-- C2, amended: for a reachable session, a pause or end whose client-claimed
time is at least every earlier event's client-claimed time never decreases
the stored accrued active time (for out-of-order claimed times it can
decrease). -/
theorem c2_monotone_for_ordered_times (s : SessionDB) (app raw : String)
    (t now : Int) (s' : SessionDB) (hr : ReachableSession s)
    (hle : ∀ e ∈ s.events, e.timestamp ≤ t) :
    (pause_session_db s app t raw = some s' →
      s.total_active_time ≤ s'.total_active_time)
    ∧ (end_session_db s app t raw now = some s' →
      s.total_active_time ≤ s'.total_active_time) := by
  constructor
  · intro heq
    unfold pause_session_db at heq
    split_ifs at heq with hc
    injection heq with he
    subst he
    rw [reachable_total_eq s hr]
    exact calc_le_append s.events ⟨t, .paused, raw⟩ hle
  · intro heq
    unfold end_session_db at heq
    split_ifs at heq with hc
    injection heq with he
    subst he
    rw [reachable_total_eq s hr]
    exact calc_le_append s.events ⟨t, .ended, raw⟩ hle

/-- C2, witness: pausing a freshly started session 60 s later (claimed
times in order) raises the stored total from 0 to a value at least 0. -/
theorem c2_witness :
    (start_session_db "u" "a" 1704067200000 "2024-01-01T00:00:00Z" "s1" 0).total_active_time
      ≤ (applyPause 1704067260000 "2024-01-01T00:01:00Z"
          (start_session_db "u" "a" 1704067200000 "2024-01-01T00:00:00Z" "s1" 0)).total_active_time :=
  (c2_monotone_for_ordered_times
    (start_session_db "u" "a" 1704067200000 "2024-01-01T00:00:00Z" "s1" 0)
    "a" "2024-01-01T00:01:00Z" 1704067260000 0
    (applyPause 1704067260000 "2024-01-01T00:01:00Z"
      (start_session_db "u" "a" 1704067200000 "2024-01-01T00:00:00Z" "s1" 0))
    (ReachableSession.start "u" "a" "2024-01-01T00:00:00Z" "s1" 1704067200000 0)
    (by decide)).1 (by decide)

/-- Helper for C5: prefixing survives appending one event. -/
lemma head_status_append (evs : List SessionEvent) (e : SessionEvent)
    (h : evs.head?.map (·.status) = some .active) :
    (evs ++ [e]).head?.map (·.status) = some .active := by
  cases evs with
  | nil => simp at h
  | cons a l => simpa using h

/-- C5: every reachable session's event sequence begins with the single
creation ACTIVE event and ends with an event whose status equals the
session's current status. -/
theorem c5_event_log_invariant (s : SessionDB) (h : ReachableSession s) :
    s.events.head?.map (·.status) = some .active
    ∧ s.events.getLast?.map (·.status) = some s.status := by
  induction h with
  | start user app raw sid t now => simp [start_session_db]
  | pauseStep s s' app raw t hr heq ih =>
      unfold pause_session_db at heq
      split_ifs at heq with hc
      injection heq with he
      subst he
      exact ⟨head_status_append s.events _ ih.1,
        by simp [applyPause, List.getLast?_concat]⟩
  | resumeStep s s' app raw t hr heq ih =>
      unfold resume_session_db at heq
      split_ifs at heq with hc
      injection heq with he
      subst he
      exact ⟨head_status_append s.events _ ih.1,
        by simp [applyResume, List.getLast?_concat]⟩
  | endStep s s' app raw t now hr heq ih =>
      unfold end_session_db at heq
      split_ifs at heq with hc
      injection heq with he
      subst he
      exact ⟨head_status_append s.events _ ih.1,
        by simp [applyEnd, List.getLast?_concat]⟩

/-- C5, witness: a started-then-paused concrete session satisfies the
invariant. -/
theorem c5_witness :
    (applyPause 1704067260000 "2024-01-01T00:01:00Z"
      (start_session_db "u" "a" 1704067200000 "2024-01-01T00:00:00Z" "s1" 0)).events.head?.map
        (·.status) = some .active
    ∧ (applyPause 1704067260000 "2024-01-01T00:01:00Z"
        (start_session_db "u" "a" 1704067200000 "2024-01-01T00:00:00Z" "s1" 0)).events.getLast?.map
        (·.status) =
      some (applyPause 1704067260000 "2024-01-01T00:01:00Z"
        (start_session_db "u" "a" 1704067200000 "2024-01-01T00:00:00Z" "s1" 0)).status :=
  c5_event_log_invariant
    (applyPause 1704067260000 "2024-01-01T00:01:00Z"
      (start_session_db "u" "a" 1704067200000 "2024-01-01T00:00:00Z" "s1" 0))
    (ReachableSession.pauseStep
      (start_session_db "u" "a" 1704067200000 "2024-01-01T00:00:00Z" "s1" 0)
      (applyPause 1704067260000 "2024-01-01T00:01:00Z"
        (start_session_db "u" "a" 1704067200000 "2024-01-01T00:00:00Z" "s1" 0))
      "a" "2024-01-01T00:01:00Z" 1704067260000
      (ReachableSession.start "u" "a" "2024-01-01T00:00:00Z" "s1" 1704067200000 0)
      (by decide))
